import Mathlib

/-!
Verification of the interview session protocol engine.

The definitions below are a shallow embedding of the Python sources of the
mock-interview backend:
  * `app/models/interview.py`        — data model (states, records, session)
  * `app/interview_engine/state_machine.py` — `InterviewStateMachine`
  * `app/interview_engine/evaluator.py`     — `EvaluationEngine`
  * `app/interview_engine/orchestrator.py`  — `InterviewOrchestrator`
  * `app/websocket/manager.py`       — `ConnectionManager`
  * `app/websocket/handlers.py`      — inbound message handlers

Conventions: Python floats are modelled as exact rationals (all numeric
literals that occur in the relevant code — 0.3, 0.7, 7.5, 6.0, the metric
weights, 5.0, 10.0 — are exactly representable as decimal rationals, and at
the concrete inputs used below double-precision arithmetic agrees with exact
rational arithmetic).  Python dicts with a fixed key set are modelled as
functions from an enumerated key type; dicts used with `.get(k, default)`
are modelled as `Option`-valued functions.  `datetime.utcnow()` is modelled
by an explicit `now : Nat` argument.  A method that may raise is modelled
as returning the untouched receiver together with an `Option` error (Python
raises before any mutation in the code at hand), or as `Except`.
-/

/-- The closed set of interview states, from `InterviewState` in
`app/models/interview.py`. -/
inductive InterviewState where
  | SETUP
  | ASK_QUESTION
  | PLAY_TTS
  | LISTEN
  | SILENCE_DETECT
  | TRANSCRIBE
  | EVALUATE
  | FOLLOWUP
  | NEXT_QUESTION
  | FINAL_EVALUATION
  | REPORT
  | COMPLETED
  | ERROR
deriving DecidableEq, Repr

/-- The six fixed metric names of `EvaluationMetrics` in
`app/interview_engine/evaluator.py`. -/
inductive MetricName where
  | technical_depth
  | communication
  | confidence
  | logical_thinking
  | problem_solving
  | culture_fit
deriving DecidableEq, Repr

/-- Model of `EvaluationMetrics.ALL_METRICS`. -/
def ALL_METRICS : List MetricName :=
  [MetricName.technical_depth, MetricName.communication, MetricName.confidence,
   MetricName.logical_thinking, MetricName.problem_solving, MetricName.culture_fit]

/-- Model of `DifficultyLevel` from `app/interview_engine/orchestrator.py`. -/
inductive DifficultyLevel where
  | EASY
  | MEDIUM
  | HARD
deriving DecidableEq, Repr

/-- Model of `QuestionType` from `app/interview_engine/orchestrator.py`. -/
inductive QuestionType where
  | BEHAVIORAL
  | TECHNICAL
  | CULTURE_FIT
  | PROBLEM_SOLVING
  | LEADERSHIP
  | GENERAL
deriving DecidableEq, Repr

/-! ## State machine (`app/interview_engine/state_machine.py`) -/

/-- One entry of `transition_history`: the dict
`{"from": ..., "to": ..., "timestamp": ...}` recorded by `transition_to`. -/
structure TransitionRecord where
  fromState : InterviewState
  toState : InterviewState
  timestamp : Nat
deriving DecidableEq, Repr

/-- Model of `StateTransitionError` raised by `transition_to`, carrying the pair of
states named in the error message. -/
structure StateTransitionError where
  fromState : InterviewState
  toState : InterviewState
deriving DecidableEq, Repr

/-- Model of `InterviewStateMachine.VALID_TRANSITIONS` as a total function (the code
reads the dict with `.get(current, [])`; every state is a key, `COMPLETED`
maps to the empty list). -/
def VALID_TRANSITIONS : InterviewState → List InterviewState
  | .SETUP => [.ASK_QUESTION, .ERROR]
  | .ASK_QUESTION => [.PLAY_TTS, .ERROR]
  | .PLAY_TTS => [.LISTEN, .ERROR]
  | .LISTEN => [.SILENCE_DETECT, .ERROR]
  | .SILENCE_DETECT => [.TRANSCRIBE, .ERROR]
  | .TRANSCRIBE => [.EVALUATE, .ERROR]
  | .EVALUATE => [.FOLLOWUP, .NEXT_QUESTION, .FINAL_EVALUATION, .ERROR]
  | .FOLLOWUP => [.ASK_QUESTION, .ERROR]
  | .NEXT_QUESTION => [.ASK_QUESTION, .FINAL_EVALUATION, .ERROR]
  | .FINAL_EVALUATION => [.REPORT, .ERROR]
  | .REPORT => [.COMPLETED, .ERROR]
  | .ERROR => [.SETUP, .COMPLETED]
  | .COMPLETED => []

/-- The mutable fields of `InterviewStateMachine`. -/
structure InterviewStateMachine where
  current_state : InterviewState
  transition_history : List TransitionRecord
  state_entry_times : InterviewState → Option Nat

/-- Model of `InterviewStateMachine.enter_state`: record the entry time of `state`. -/
def enter_state (m : InterviewStateMachine) (state : InterviewState) (now : Nat) :
    InterviewStateMachine :=
  { m with state_entry_times := fun s =>
      if s = state then some now else m.state_entry_times s }

/-- Model of `InterviewStateMachine.__init__`. -/
def mkStateMachine (initial_state : InterviewState) (now : Nat) : InterviewStateMachine :=
  enter_state
    { current_state := initial_state, transition_history := [],
      state_entry_times := fun _ => none }
    initial_state now

/-- Model of `InterviewStateMachine.can_transition_to`. -/
def can_transition_to (m : InterviewStateMachine) (target_state : InterviewState) : Prop :=
  target_state ∈ VALID_TRANSITIONS m.current_state

instance (m : InterviewStateMachine) (t : InterviewState) :
    Decidable (can_transition_to m t) := by
  unfold can_transition_to; infer_instance

/-- Model of `InterviewStateMachine.transition_to`.  Returns the machine after the
call together with the raised error, if any: on an invalid target the Python
method raises `StateTransitionError` before any mutation, so the machine is
returned unchanged; on success it sets `current_state`, appends one record to
`transition_history` and calls `enter_state`. -/
def transition_to (m : InterviewStateMachine) (target_state : InterviewState) (now : Nat) :
    InterviewStateMachine × Option StateTransitionError :=
  if can_transition_to m target_state then
    let m1 : InterviewStateMachine :=
      { m with current_state := target_state,
               transition_history := m.transition_history ++
                 [⟨m.current_state, target_state, now⟩] }
    (enter_state m1 target_state now, none)
  else
    (m, some ⟨m.current_state, target_state⟩)

/-- Model of `InterviewStateMachine.is_terminal_state`. -/
def is_terminal_state (m : InterviewStateMachine) : Prop :=
  m.current_state ∈ [InterviewState.COMPLETED, InterviewState.ERROR]

/-! ## Evaluation engine (`app/interview_engine/evaluator.py`) -/

/-- Model of `AnswerEvaluation`; its `scores` field is a Python dict keyed by metric names;
it is modelled `Option`-valued because the class accepts any dict and reads
it back with `.get(metric, 0.0)`. -/
structure AnswerEvaluation where
  question : String
  answer : String
  scores : MetricName → Option ℚ
  needs_followup : Bool
  weaknesses : List String
  strengths : List String
  reasoning : String

/-- Model of `AnswerEvaluation.get_metric_score`: `self.scores.get(metric, 0.0)`. -/
def get_metric_score (e : AnswerEvaluation) (metric : MetricName) : ℚ :=
  (e.scores metric).getD 0

/-- Model of `AnswerEvaluation.get_average_score`: average over the keys present in
the `scores` dict, `0.0` when the dict is empty. -/
def get_average_score (e : AnswerEvaluation) : ℚ :=
  let vals := ALL_METRICS.filterMap e.scores
  if vals.isEmpty then 0 else vals.sum / (vals.length : ℚ)

/-- The structured result of the external evaluation collaborator
(`gemini_client.evaluate_answer_detailed`), as read by
`EvaluationEngine.evaluate_answer` via `.get(key, default)`: every field the
collaborator may omit is `Option`-valued. -/
structure DetailedEvalResult where
  scores : MetricName → Option ℚ
  needs_followup : Option Bool
  weaknesses : Option (List String)
  strengths : Option (List String)
  reasoning : Option String

/-- Model of `EvaluationEngine.evaluate_answer` (the pure part, after the collaborator
call): extract the six scores with default `5.0`, clamp each into
`[0, 10]` with `max(0.0, min(10.0, s))`, and build the `AnswerEvaluation`. -/
def evaluate_answer (question answer : String) (evaluation_result : DetailedEvalResult) :
    AnswerEvaluation :=
  let raw : MetricName → ℚ := fun metric => (evaluation_result.scores metric).getD 5
  let clamped : MetricName → ℚ := fun metric => max 0 (min 10 (raw metric))
  { question := question
    answer := answer
    scores := fun metric => some (clamped metric)
    needs_followup := evaluation_result.needs_followup.getD false
    weaknesses := evaluation_result.weaknesses.getD []
    strengths := evaluation_result.strengths.getD []
    reasoning := evaluation_result.reasoning.getD ("") }

/-- Model of `EvaluationEngine.aggregate_evaluations`. -/
def aggregate_evaluations (evaluations : List AnswerEvaluation)
    (weights : Option (MetricName → Option ℚ)) : MetricName → ℚ :=
  if evaluations.isEmpty then fun _ => 0
  else
    let w : MetricName → Option ℚ := weights.getD (fun _ => some 1)
    fun metric =>
      let metric_scores := evaluations.map (fun e => get_metric_score e metric)
      let weight := (w metric).getD 1
      if metric_scores.isEmpty then 0
      else
        let weighted_sum := (metric_scores.map (fun score => score * weight)).sum
        let total_weight := (metric_scores.map (fun _ => (w metric).getD 1)).sum
        if 0 < total_weight then weighted_sum / total_weight else 0

/-- The default metric weights of `calculate_overall_score`. -/
def default_metric_weights : MetricName → ℚ
  | .technical_depth => 1.2
  | .communication => 1.0
  | .confidence => 0.8
  | .logical_thinking => 1.1
  | .problem_solving => 1.2
  | .culture_fit => 0.9

/-- Model of `EvaluationEngine.calculate_overall_score`: weighted mean of the six
aggregated metrics (`aggregated_scores.get(metric, 0.0)`,
`metric_weights.get(metric, 1.0)`), clamped into `[0, 10]`. -/
def calculate_overall_score (aggregated_scores : MetricName → Option ℚ)
    (metric_weights : Option (MetricName → Option ℚ)) : ℚ :=
  let mw : MetricName → Option ℚ :=
    match metric_weights with
    | none => fun metric => some (default_metric_weights metric)
    | some w => w
  let weighted_sum :=
    (ALL_METRICS.map (fun metric =>
      (aggregated_scores metric).getD 0 * (mw metric).getD 1)).sum
  let total_weight := (ALL_METRICS.map (fun metric => (mw metric).getD 1)).sum
  let overall_score := if 0 < total_weight then weighted_sum / total_weight else 0
  max 0 (min 10 overall_score)

/-- Model of `EvaluationEngine.determine_verdict`. -/
def determine_verdict (overall_score : ℚ) : String :=
  if 7.5 ≤ overall_score then ("Hire")
  else if 6.0 ≤ overall_score then ("Borderline")
  else ("No-Hire")

/-! ## Data model (`app/models/interview.py`) -/

/-- Model of `AnswerEvaluationRecord`; its `metrics` field is the pydantic
`EvaluationMetrics` model with six float fields, modelled as a total
function on the metric names. -/
structure AnswerEvaluationRecord where
  question_number : Nat
  question : String
  answer : String
  metrics : MetricName → ℚ
  needs_followup : Bool
  weaknesses : List String
  strengths : List String
  reasoning : Option String

/-- Model of `FinalEvaluation` (the `insights` dict, a free-form reporting payload,
is not modelled; no claim concerns it). -/
structure FinalEvaluation where
  overall_score : ℚ
  aggregated_metrics : MetricName → ℚ
  verdict : String
  total_questions : Nat
  total_answers : Nat

/-- Model of `InterviewSession`.  The loosely-typed `scores : Dict[str, float]` dict
is modelled by the three kinds of entries the code actually stores in it:
the `"answer_quality"` list, the `"overall_score"` entry, and the six
per-metric entries (an entry is `none` while its key is absent; the
`"answer_quality"` key is created together with its first element, so
key-absent and empty-list coincide). -/
structure InterviewSession where
  session_id : String
  state : InterviewState
  job_role : String
  job_description : String
  question_count : Nat
  current_question_number : Nat
  questions : List String
  answers : List String
  answer_quality_scores : List ℚ
  overall_score_entry : Option ℚ
  metric_score_entries : MetricName → Option ℚ
  evaluation_history : List AnswerEvaluationRecord
  final_evaluation : Option FinalEvaluation

/-! ## Orchestrator (`app/interview_engine/orchestrator.py`) -/

/-- The `{"text": ..., "topic": ...}` dict returned by the question
generation collaborator (`gemini_client.generate_*_question`). -/
structure QuestionResult where
  text : String
  topic : String
deriving DecidableEq, Repr

/-- The dict returned by the `gemini_client.evaluate_answer` collaborator as
used by `process_answer`: `quality_score` and `needs_followup` are read by
direct subscript (required), `weaknesses` and `strengths` via `.get`
(optional). -/
structure GeminiEvaluation where
  quality_score : ℚ
  needs_followup : Bool
  weaknesses : Option (List String)
  strengths : Option (List String)

/-- Model of the `InterviewOrchestrator` instance state. -/
structure InterviewOrchestrator where
  session : InterviewSession
  state_machine : InterviewStateMachine
  conversation_history : List (String × String)
  current_answer_buffer : String
  pending_followup : Bool
  covered_topics : List String
  question_types_asked : List QuestionType
  difficulty_progression : List DifficultyLevel
  current_difficulty : DifficultyLevel
  weak_areas : List String
  strengths : List String

/-- Model of `InterviewOrchestrator.__init__`. -/
def mkOrchestrator (session : InterviewSession) (now : Nat) : InterviewOrchestrator :=
  { session := session
    state_machine := mkStateMachine .SETUP now
    conversation_history := []
    current_answer_buffer := ""
    pending_followup := false
    covered_topics := []
    question_types_asked := []
    difficulty_progression := []
    current_difficulty := .EASY
    weak_areas := []
    strengths := [] }

/-- A state-machine transition wrapped in `try/except StateTransitionError`:
the orchestrator logs and swallows the error, keeping whatever machine state
the failed call left behind (the failed call mutates nothing). -/
def try_transition (o : InterviewOrchestrator) (target : InterviewState) (now : Nat) :
    InterviewOrchestrator :=
  { o with state_machine := (transition_to o.state_machine target now).1 }

/-- Model of `InterviewOrchestrator.generate_first_question` (the collaborator result
is a parameter). -/
def generate_first_question (o : InterviewOrchestrator) (result : QuestionResult)
    (now : Nat) : InterviewOrchestrator :=
  let o := try_transition o .ASK_QUESTION now
  { o with
    session := { o.session with
      questions := o.session.questions ++ [result.text]
      current_question_number := 1
      state := .ASK_QUESTION }
    current_difficulty := .EASY
    difficulty_progression := o.difficulty_progression ++ [DifficultyLevel.EASY]
    question_types_asked := o.question_types_asked ++ [QuestionType.GENERAL] }

/-- Model of `InterviewOrchestrator._update_difficulty`: thresholds the *current*
value of `session.current_question_number` (read before the increment in
`generate_next_question`) against `0.3 · total` and `0.7 · total`. -/
def update_difficulty (o : InterviewOrchestrator) : InterviewOrchestrator :=
  let question_num := o.session.current_question_number
  let total := o.session.question_count
  let d : DifficultyLevel :=
    if (question_num : ℚ) ≤ (total : ℚ) * 0.3 then .EASY
    else if (question_num : ℚ) ≤ (total : ℚ) * 0.7 then .MEDIUM
    else .HARD
  { o with current_difficulty := d }

/-- Model of `InterviewOrchestrator.generate_next_question`: `none` models the
`return None` at the question limit. -/
def generate_next_question (o : InterviewOrchestrator) (result : QuestionResult)
    (now : Nat) : Option InterviewOrchestrator :=
  if o.session.question_count ≤ o.session.current_question_number then none
  else
    let o := update_difficulty o
    let o := try_transition o .ASK_QUESTION now
    some { o with
      session := { o.session with
        questions := o.session.questions ++ [result.text]
        current_question_number := o.session.current_question_number + 1
        state := .ASK_QUESTION }
      pending_followup := false
      difficulty_progression := o.difficulty_progression ++ [o.current_difficulty] }

/-- Model of `InterviewOrchestrator.add_transcript_chunk`. -/
def add_transcript_chunk (o : InterviewOrchestrator) (transcript : String)
    (final : Bool) : InterviewOrchestrator :=
  if final then
    { o with current_answer_buffer := (o.current_answer_buffer ++ " " ++ transcript).trim }
  else
    { o with current_answer_buffer := transcript }

/-- The dict returned by `process_answer`. -/
structure ProcessAnswerResult where
  evaluation : Option GeminiEvaluation
  needs_followup : Bool
  next_action : String
  quality_score : Option ℚ

/-- Model of `InterviewOrchestrator.process_answer` (the collaborator result is a
parameter; it is consulted only on the path where the code actually calls
the collaborator). -/
def process_answer (o : InterviewOrchestrator) (evaluation : GeminiEvaluation)
    (now : Nat) : InterviewOrchestrator × ProcessAnswerResult :=
  if o.current_answer_buffer = "" then
    (o, { evaluation := none, needs_followup := false,
          next_action := "next_question", quality_score := none })
  else if o.session.questions = [] then
    (o, { evaluation := none, needs_followup := false,
          next_action := "next_question", quality_score := none })
  else
    let current_question := o.session.questions.getLastD ("")
    let answer := o.current_answer_buffer
    let quality_score := evaluation.quality_score
    let o := { o with
      session := { o.session with
        answer_quality_scores := o.session.answer_quality_scores ++ [quality_score]
        answers := o.session.answers ++ [answer] }
      conversation_history := o.conversation_history ++ [(current_question, answer)]
      weak_areas := o.weak_areas ++ evaluation.weaknesses.getD []
      strengths := o.strengths ++ evaluation.strengths.getD [] }
    let needs_followup := evaluation.needs_followup && !o.pending_followup
    let o := try_transition o .EVALUATE now
    let o := { o with current_answer_buffer := "" }
    (o, { evaluation := some evaluation
          needs_followup := needs_followup
          next_action := if needs_followup then ("followup") else ("next_question")
          quality_score := some quality_score })

/-- Model of `InterviewOrchestrator.generate_followup_question`: appends the
follow-up question without advancing the question counter and sets
`pending_followup`.  The two machine transitions share one `try` block, so a
failure of the first skips the second. -/
def generate_followup_question (o : InterviewOrchestrator) (result : QuestionResult)
    (now : Nat) : Option InterviewOrchestrator :=
  if o.session.questions = [] then none
  else
    let o := { o with
      session := { o.session with questions := o.session.questions ++ [result.text] }
      pending_followup := true }
    let step1 := transition_to o.state_machine .FOLLOWUP now
    let m :=
      match step1.2 with
      | none => (transition_to step1.1 .ASK_QUESTION now).1
      | some _ => step1.1
    some { o with
      state_machine := m
      session := { o.session with state := .ASK_QUESTION } }

/-- Model of `InterviewOrchestrator.should_continue`. -/
def should_continue (o : InterviewOrchestrator) : Bool :=
  o.session.current_question_number < o.session.question_count

/-- Model of `InterviewOrchestrator.complete_interview`.  The two or three completion
transitions share a single `try` block, so the first failure skips the
remaining ones; `session.state` is then set to `FINAL_EVALUATION`
unconditionally.  With evaluation history, the aggregator pipeline runs and
stores the overall score, per-metric entries and the `FinalEvaluation`;
without it, the code falls back to the mean of the legacy
`scores["answer_quality"]` list if that list is non-empty, and otherwise
leaves `scores` untouched. -/
def complete_interview (o : InterviewOrchestrator) (now : Nat) : InterviewOrchestrator :=
  let m0 := o.state_machine
  let step1 :=
    if m0.current_state ≠ .FINAL_EVALUATION then transition_to m0 .FINAL_EVALUATION now
    else (m0, none)
  let step2 :=
    match step1.2 with
    | none => transition_to step1.1 .REPORT now
    | some e => (step1.1, some e)
  let m3 :=
    match step2.2 with
    | none => (transition_to step2.1 .COMPLETED now).1
    | some _ => step2.1
  let o := { o with
    state_machine := m3
    session := { o.session with state := .FINAL_EVALUATION } }
  if o.session.evaluation_history.isEmpty then
    if o.session.answer_quality_scores.isEmpty then o
    else
      { o with session := { o.session with
          overall_score_entry := some (o.session.answer_quality_scores.sum /
            (o.session.answer_quality_scores.length : ℚ)) } }
  else
    let evaluations : List AnswerEvaluation :=
      o.session.evaluation_history.map (fun r =>
        { question := r.question
          answer := r.answer
          scores := fun metric => some (r.metrics metric)
          needs_followup := r.needs_followup
          weaknesses := r.weaknesses
          strengths := r.strengths
          reasoning := r.reasoning.getD ("") })
    let aggregated_scores := aggregate_evaluations evaluations none
    let overall_score :=
      calculate_overall_score (fun metric => some (aggregated_scores metric)) none
    let verdict := determine_verdict overall_score
    { o with session := { o.session with
        overall_score_entry := some overall_score
        metric_score_entries := fun metric => some (aggregated_scores metric)
        final_evaluation := some
          { overall_score := overall_score
            aggregated_metrics := aggregated_scores
            verdict := verdict
            total_questions := o.session.question_count
            total_answers := o.session.answers.length } } }

/-- The dict returned by `InterviewOrchestrator.handle_user_answer`. -/
structure HandleAnswerResult where
  next_question : Option QuestionResult
  followup_flag : Bool
  question_index : Nat
  interview_complete_flag : Bool

/-- Model of `InterviewOrchestrator.handle_user_answer`: buffer the final answer,
process it, then branch to follow-up generation (with a fallback to the
next question when follow-up generation returns nothing), to the next
question, or to completion.  The three collaborator results are
parameters. -/
def handle_user_answer (o : InterviewOrchestrator) (user_answer : String)
    (evaluation : GeminiEvaluation) (followup_result next_result : QuestionResult)
    (now : Nat) : InterviewOrchestrator × HandleAnswerResult :=
  let o := { o with current_answer_buffer := user_answer }
  let pr := process_answer o evaluation now
  let o := pr.1
  let completePath : InterviewOrchestrator × HandleAnswerResult :=
    let o2 := complete_interview o now
    (o2, { next_question := none, followup_flag := false,
           question_index := o2.session.current_question_number,
           interview_complete_flag := true })
  if pr.2.needs_followup then
    match generate_followup_question o followup_result now with
    | some o2 =>
      (o2, { next_question := some followup_result, followup_flag := true,
             question_index := o2.session.current_question_number,
             interview_complete_flag := false })
    | none =>
      if should_continue o then
        match generate_next_question o next_result now with
        | some o2 =>
          (o2, { next_question := some next_result, followup_flag := false,
                 question_index := o2.session.current_question_number,
                 interview_complete_flag := false })
        | none => completePath
      else completePath
  else
    if should_continue o then
      match generate_next_question o next_result now with
      | some o2 =>
        (o2, { next_question := some next_result, followup_flag := false,
               question_index := o2.session.current_question_number,
               interview_complete_flag := false })
      | none => completePath
    else completePath

/-! ## Connection manager (`app/websocket/manager.py`) -/

/-- Model of the `ConnectionManager` state: the two dicts, keyed by session id.  The
transport handle itself is opaque; a `Nat` stands in for the WebSocket
object. -/
structure ConnectionManager where
  active_connections : List (String × Nat)
  sessions : List (String × InterviewSession)

/-- Python `del d[k]`: removes the key, raising `KeyError` when absent. -/
def dict_delete (d : List (String × Nat)) (k : String) :
    Except String (List (String × Nat)) :=
  if d.any (fun p => p.1 = k) then .ok (d.filter (fun p => p.1 ≠ k))
  else .error ("KeyError")

/-- Model of `ConnectionManager.disconnect`: `if session_id in active_connections:
del active_connections[session_id]`; the sessions dict is never touched
(the code deliberately keeps session data for report generation). -/
def disconnect (m : ConnectionManager) (session_id : String) :
    Except String ConnectionManager :=
  if m.active_connections.any (fun p => p.1 = session_id) then
    match dict_delete m.active_connections session_id with
    | .ok d => .ok { m with active_connections := d }
    | .error e => .error e
  else .ok m

/-! ## Websocket handlers (`app/websocket/handlers.py`)

Only the control flow that decides which outbound message is produced is
relevant to the claims; sending itself is transport plumbing.  Each handler
is modelled as a state transformer on the orchestrator (the session object
is owned by the orchestrator, and `manager.update_session_state` mutates
that same object) returning the kind of message sent. -/

/-- The outbound message produced by one inbound answer-bearing event: a
follow-up question, an original next question, the completion message, or
nothing. -/
inductive HandlerOutcome where
  | followupIssued
  | questionIssued
  | completeIssued
  | nothingSent
deriving DecidableEq, Repr

/-- Model of `handle_transcribe`: buffer the chunk; on a final chunk, run the
connected pipeline `handle_user_answer` and emit either the completion
message or the next (follow-up or original) question. -/
def handle_transcribe (o : InterviewOrchestrator) (transcript : String) (final : Bool)
    (evaluation : GeminiEvaluation) (followup_result next_result : QuestionResult)
    (now : Nat) : InterviewOrchestrator × HandlerOutcome :=
  let o := add_transcript_chunk o transcript final
  if final then
    let o := { o with session := { o.session with state := .EVALUATE } }
    let r := handle_user_answer o transcript evaluation followup_result next_result now
    if r.2.interview_complete_flag then (r.1, .completeIssued)
    else
      let o2 := { r.1 with session := { r.1.session with state := .ASK_QUESTION } }
      (o2, if r.2.followup_flag then .followupIssued else .questionIssued)
  else (o, .nothingSent)

/-- Model of `handle_silence_detected`: with a non-empty answer buffer it evaluates
through the evaluation engine, appends the record to
`session.evaluation_history`, and builds its `result` dict with
`needs_followup = evaluation.needs_followup` taken directly from the engine
result (no `pending_followup` guard); with an empty buffer it falls back to
`process_answer`.  It then issues a follow-up when `result["needs_followup"]`
holds, else the next question or completion.  The engine evaluation and the
collaborator results are parameters. -/
def handle_silence_detected (o : InterviewOrchestrator) (evaluation : AnswerEvaluation)
    (gemini_eval : GeminiEvaluation) (followup_result next_result : QuestionResult)
    (now : Nat) : InterviewOrchestrator × HandlerOutcome :=
  let o := { o with session := { o.session with state := .SILENCE_DETECT } }
  let current_question := o.session.questions.getLastD ("")
  let current_answer := o.current_answer_buffer
  let step :=
    if current_answer ≠ "" then
      let eval_record : AnswerEvaluationRecord :=
        { question_number := o.session.current_question_number
          question := current_question
          answer := current_answer
          metrics := fun metric => (evaluation.scores metric).getD 0
          needs_followup := evaluation.needs_followup
          weaknesses := evaluation.weaknesses
          strengths := evaluation.strengths
          reasoning := some evaluation.reasoning }
      let o := { o with session := { o.session with
        evaluation_history := o.session.evaluation_history ++ [eval_record] } }
      let result : ProcessAnswerResult :=
        { evaluation := some
            { quality_score := get_average_score evaluation
              needs_followup := evaluation.needs_followup
              weaknesses := some evaluation.weaknesses
              strengths := some evaluation.strengths }
          needs_followup := evaluation.needs_followup
          next_action := if evaluation.needs_followup then ("followup") else ("next_question")
          quality_score := some (get_average_score evaluation) }
      let o := { o with
        conversation_history := o.conversation_history ++ [(current_question, current_answer)]
        session := { o.session with answers := o.session.answers ++ [current_answer] }
        current_answer_buffer := "" }
      (o, result)
    else
      process_answer o gemini_eval now
  let o := { step.1 with session := { step.1.session with state := .EVALUATE } }
  if step.2.needs_followup then
    match generate_followup_question o followup_result now with
    | some o2 => (o2, .followupIssued)
    | none => (o, .nothingSent)
  else
    if should_continue o then
      match generate_next_question o next_result now with
      | some o2 => (o2, .questionIssued)
      | none => (complete_interview o now, .completeIssued)
    else (complete_interview o now, .completeIssued)

/-! ## Inbound event traces -/

/-- One final-transcript inbound event, together with the collaborator
responses consumed while handling it. -/
structure TranscribeEvent where
  transcript : String
  evaluation : GeminiEvaluation
  followup_result : QuestionResult
  next_result : QuestionResult

/-- Run a sequence of final-transcript events through `handle_transcribe`
(the per-session protocol serializes inbound messages), collecting the
outbound message kinds. -/
def runTranscribe : InterviewOrchestrator → List TranscribeEvent → List HandlerOutcome
  | _, [] => []
  | o, e :: es =>
    let r := handle_transcribe o e.transcript true e.evaluation e.followup_result
      e.next_result 0
    r.2 :: runTranscribe r.1 es

/-- One silence-detection inbound event preceded by an interim transcript
chunk that fills the answer buffer, with the evaluation-engine result and
collaborator responses consumed while handling it. -/
structure SilenceEvent where
  transcript : String
  evaluation : AnswerEvaluation
  gemini_eval : GeminiEvaluation
  followup_result : QuestionResult
  next_result : QuestionResult

/-- Run a sequence of interim-transcript-then-silence event pairs through
`handle_silence_detected`, collecting the outbound message kinds. -/
def runSilence : InterviewOrchestrator → List SilenceEvent → List HandlerOutcome
  | _, [] => []
  | o, e :: es =>
    let o1 := add_transcript_chunk o e.transcript false
    let r := handle_silence_detected o1 e.evaluation e.gemini_eval e.followup_result
      e.next_result 0
    r.2 :: runSilence r.1 es

/-! ## Concrete fixtures used by the closed theorems -/

/-- A fresh session as built by `handle_start_interview` for a configured
question count. -/
def mkSession (total : Nat) : InterviewSession :=
  { session_id := "s1"
    state := .SETUP
    job_role := "Backend Engineer"
    job_description := "jd"
    question_count := total
    current_question_number := 0
    questions := []
    answers := []
    answer_quality_scores := []
    overall_score_entry := none
    metric_score_entries := fun _ => none
    evaluation_history := []
    final_evaluation := none }

/-- Iterate `generate_next_question` (with fixed collaborator output) the
given number of times. -/
def askMore (o : InterviewOrchestrator) : Nat → Option InterviewOrchestrator
  | 0 => some o
  | n + 1 => (askMore o n).bind (fun o2 => generate_next_question o2 ⟨"q", "t"⟩ 0)

/-- An orchestrator right after the first question of a five-question
session was generated. -/
def demoStartedOrchestrator : InterviewOrchestrator :=
  generate_first_question (mkOrchestrator (mkSession 5) 0) ⟨"q1", "t"⟩ 0

/-- An evaluation-engine result whose `needs_followup` flag is set. -/
def demoEngineEval : AnswerEvaluation :=
  { question := "q1"
    answer := "a"
    scores := fun _ => some 5
    needs_followup := true
    weaknesses := []
    strengths := []
    reasoning := "" }

/-- A `gemini_client.evaluate_answer` result whose `needs_followup` flag is
set. -/
def demoGeminiEval : GeminiEvaluation :=
  { quality_score := 5
    needs_followup := true
    weaknesses := none
    strengths := none }

/-- A silence event carrying an evaluator verdict that asks for a
follow-up. -/
def demoSilenceEvent : SilenceEvent :=
  { transcript := "an answer"
    evaluation := demoEngineEval
    gemini_eval := demoGeminiEval
    followup_result := ⟨"fq", "t"⟩
    next_result := ⟨"nq", "t"⟩ }

/-- A session that recorded one legacy quality score but no evaluation
history (the state `process_answer` leaves behind when the detailed
evaluation path was never taken). -/
def demoSessionLegacy : InterviewSession :=
  { mkSession 3 with answer_quality_scores := [8] }

/-- An evaluation whose every metric score is 10. -/
def demoTenEval : AnswerEvaluation :=
  { question := "q"
    answer := "a"
    scores := fun _ => some 10
    needs_followup := false
    weaknesses := []
    strengths := []
    reasoning := "" }

/-! ## Helper lemmas -/

theorem sum_map_const {α : Type} (l : List α) (c : ℚ) :
    (l.map (fun _ => c)).sum = c * (l.length : ℚ) := by
  induction l with
  | nil => simp
  | cons x xs ih => simp [ih]; ring

theorem sum_map_mul_const (l : List ℚ) (c : ℚ) :
    (l.map (fun s => s * c)).sum = l.sum * c := by
  induction l with
  | nil => simp
  | cons x xs ih => simp [ih]; ring

theorem sum_map_of_const {α : Type} (l : List α) (f : α → ℚ) (c : ℚ)
    (h : ∀ x ∈ l, f x = c) : (l.map f).sum = c * (l.length : ℚ) := by
  induction l with
  | nil => simp
  | cons x xs ih =>
    have hx := h x (List.mem_cons_self x xs)
    have hxs : ∀ y ∈ xs, f y = c := fun y hy => h y (List.mem_cons_of_mem x hy)
    simp [hx, ih hxs]
    ring

/-- The weighted mean computed by `aggregate_evaluations` collapses to the
plain arithmetic mean of the per-answer scores whenever the effective weight
of the metric is positive. -/
theorem aggregate_eq_mean (evaluations : List AnswerEvaluation)
    (weights : Option (MetricName → Option ℚ)) (metric : MetricName)
    (hne : evaluations ≠ [])
    (hw : 0 < ((weights.getD (fun _ => some 1)) metric).getD 1) :
    aggregate_evaluations evaluations weights metric =
      (evaluations.map (fun e => get_metric_score e metric)).sum /
        (evaluations.length : ℚ) := by
  have hempty : evaluations.isEmpty = false := by
    simp [List.isEmpty_iff, hne]
  set w := ((weights.getD (fun _ => some 1)) metric).getD 1 with hwdef
  have hlen : 0 < (evaluations.length : ℚ) := by
    have := List.length_pos.mpr hne
    exact_mod_cast this
  unfold aggregate_evaluations
  rw [hempty]
  simp only [Bool.false_eq_true, if_false]
  set ms := evaluations.map (fun e => get_metric_score e metric) with hms
  have hmslen : (ms.length : ℚ) = (evaluations.length : ℚ) := by
    simp [hms]
  have hmsempty : ms.isEmpty = false := by
    simp [hms, List.isEmpty_iff, hne]
  rw [hmsempty]
  simp only [Bool.false_eq_true, if_false]
  rw [sum_map_mul_const, sum_map_const]
  rw [hmslen]
  have htw : 0 < w * (evaluations.length : ℚ) := mul_pos hw hlen
  rw [if_pos htw]
  rw [mul_comm w (evaluations.length : ℚ)]
  exact mul_div_mul_right _ _ (ne_of_gt hw)

theorem any_filter_key_false (l : List (String × Nat)) (k : String) :
    (l.filter (fun p => p.1 ≠ k)).any (fun p => p.1 = k) = false := by
  induction l with
  | nil => simp
  | cons x xs ih =>
    by_cases h : x.1 = k <;> simp [List.filter_cons, h, ih]

/-! ## Claim theorems -/

/-- Claim C1: for every state machine and target, `transition_to` succeeds
exactly when the target is in the `VALID_TRANSITIONS` entry of the current
state; an invalid target raises `StateTransitionError` and leaves the
machine (in particular its current state) unchanged; success moves to the
target, appends exactly the record `(from, to, timestamp)` to the
transition history, and stamps the per-state entry time. -/
theorem transition_to_spec :
    ∀ (m : InterviewStateMachine) (target : InterviewState) (now : Nat),
      ((transition_to m target now).2 = none ↔
        target ∈ VALID_TRANSITIONS m.current_state) ∧
      ((transition_to m target now).2 ≠ none → (transition_to m target now).1 = m) ∧
      ((transition_to m target now).2 = none →
        (transition_to m target now).1.current_state = target ∧
        (transition_to m target now).1.transition_history =
          m.transition_history ++ [⟨m.current_state, target, now⟩] ∧
        (transition_to m target now).1.state_entry_times target = some now) := by
  intro m target now
  by_cases h : can_transition_to m target
  · have hmem : target ∈ VALID_TRANSITIONS m.current_state := h
    refine ⟨by simp [transition_to, h, hmem], ?_, ?_⟩
    · intro hne
      exact absurd (by simp [transition_to, h]) hne
    · intro _
      refine ⟨by simp [transition_to, h, enter_state], by simp [transition_to, h, enter_state], ?_⟩
      simp [transition_to, h, enter_state]
  · have hmem : target ∉ VALID_TRANSITIONS m.current_state := h
    refine ⟨by simp [transition_to, h, hmem], ?_, ?_⟩
    · intro _
      simp [transition_to, h]
    · intro habs
      exact absurd habs (by simp [transition_to, h])

/-- Witness for C1 at a concrete machine and target. -/
theorem transition_to_spec_witness :
    (transition_to (mkStateMachine .SETUP 0) .ASK_QUESTION 5).2 = none ∧
    (transition_to (mkStateMachine .SETUP 0) .ASK_QUESTION 5).1.current_state =
      .ASK_QUESTION := by
  have h := transition_to_spec (mkStateMachine .SETUP 0) .ASK_QUESTION 5
  have hnone : (transition_to (mkStateMachine .SETUP 0) .ASK_QUESTION 5).2 = none :=
    h.1.mpr (by decide)
  exact ⟨hnone, (h.2.2 hnone).1⟩

/-- Claim C6: `determine_verdict` maps scores of at least 7.5 to Hire,
scores in [6.0, 7.5) to Borderline and scores below 6.0 to No-Hire, with
both band lower bounds inclusive. -/
theorem determine_verdict_bands :
    ∀ s : ℚ,
      (7.5 ≤ s → determine_verdict s = "Hire") ∧
      (6.0 ≤ s ∧ s < 7.5 → determine_verdict s = "Borderline") ∧
      (s < 6.0 → determine_verdict s = "No-Hire") ∧
      determine_verdict 7.5 = "Hire" ∧
      determine_verdict 6.0 = "Borderline" := by
  intro s
  refine ⟨?_, ?_, ?_, by norm_num [determine_verdict], by norm_num [determine_verdict]⟩
  · intro h
    simp [determine_verdict, h]
  · rintro ⟨h1, h2⟩
    rw [determine_verdict, if_neg (by linarith), if_pos (by linarith)]
  · intro h
    rw [determine_verdict, if_neg (by linarith), if_neg (by linarith)]

/-- Witness for C6 at concrete scores in each band. -/
theorem determine_verdict_bands_witness :
    determine_verdict 8 = "Hire" ∧ determine_verdict 6.5 = "Borderline" ∧
    determine_verdict 3 = "No-Hire" :=
  ⟨(determine_verdict_bands 8).1 (by norm_num),
   (determine_verdict_bands 6.5).2.1 ⟨by norm_num, by norm_num⟩,
   (determine_verdict_bands 3).2.2.1 (by norm_num)⟩

/-- Claim C7: every metric score stored by `evaluate_answer` is present and
clamped into [0, 10]; a metric missing from the collaborator response is
stored as the default 5.0; in particular `technical_depth = 15` is stored
as 10.0 and a missing `confidence` as 5.0. -/
theorem evaluate_answer_clamp_defaults :
    ∀ (q a : String) (r : DetailedEvalResult),
      (∀ metric, ∃ v, (evaluate_answer q a r).scores metric = some v ∧
        0 ≤ v ∧ v ≤ 10) ∧
      (∀ metric, r.scores metric = none →
        (evaluate_answer q a r).scores metric = some 5) ∧
      (r.scores .technical_depth = some 15 →
        (evaluate_answer q a r).scores .technical_depth = some 10) ∧
      (r.scores .confidence = none →
        (evaluate_answer q a r).scores .confidence = some 5) := by
  intro q a r
  refine ⟨?_, ?_, ?_, ?_⟩
  · intro metric
    refine ⟨max 0 (min 10 ((r.scores metric).getD 5)), rfl, le_max_left _ _, ?_⟩
    exact max_le (by norm_num) (min_le_left _ _)
  · intro metric h
    simp [evaluate_answer, h]
    norm_num
  · intro h
    simp [evaluate_answer, h]
    norm_num
  · intro h
    simp [evaluate_answer, h]
    norm_num

/-- Witness for C7 at the concrete response of the claim:
`technical_depth = 15`, `confidence` missing. -/
theorem evaluate_answer_clamp_defaults_witness :
    (evaluate_answer ("q") ("a")
        { scores := fun metric => if metric = .technical_depth then some 15 else none,
          needs_followup := none, weaknesses := none, strengths := none,
          reasoning := none }).scores .technical_depth = some 10 ∧
    (evaluate_answer ("q") ("a")
        { scores := fun metric => if metric = .technical_depth then some 15 else none,
          needs_followup := none, weaknesses := none, strengths := none,
          reasoning := none }).scores .confidence = some 5 := by
  have h := evaluate_answer_clamp_defaults ("q") ("a")
    { scores := fun metric => if metric = .technical_depth then some 15 else none,
      needs_followup := none, weaknesses := none, strengths := none,
      reasoning := none }
  exact ⟨h.2.2.1 rfl, h.2.2.2 rfl⟩

/-- Claim C9: `disconnect` never raises, removes only the transport handle
(the sessions table is untouched), and a second call on its own result is a
no-op. -/
theorem disconnect_idempotent_keeps_sessions :
    ∀ (m : ConnectionManager) (session_id : String),
      ∃ m1, disconnect m session_id = .ok m1 ∧
        m1.sessions = m.sessions ∧
        disconnect m1 session_id = .ok m1 := by
  intro m session_id
  by_cases h : m.active_connections.any (fun p => p.1 = session_id) = true
  · refine ⟨{ m with active_connections :=
        m.active_connections.filter (fun p => p.1 ≠ session_id) }, ?_, rfl, ?_⟩
    · simp [disconnect, dict_delete, h]
    · simp [disconnect, any_filter_key_false]
  · have h' : m.active_connections.any (fun p => p.1 = session_id) = false := by
      simp only [Bool.not_eq_true] at h
      exact h
    exact ⟨m, by simp [disconnect, h'], rfl, by simp [disconnect, h']⟩

/-- Claim C2 (failing run): in a ten-question session the recorded
difficulty ramp over questions 1–8 is EASY, EASY, EASY, EASY, MEDIUM,
MEDIUM, MEDIUM, MEDIUM — question 4 is generated at EASY where the claim
(and the code's own "first 30% easy" comment) requires MEDIUM, and question
8 at MEDIUM where the claim requires HARD, because `_update_difficulty`
reads `current_question_number` before it is incremented. -/
theorem difficulty_progression_T10 :
    (askMore (generate_first_question (mkOrchestrator (mkSession 10) 0) ⟨"q1", "t"⟩ 0) 7).map
        (fun o => o.difficulty_progression) =
      some [DifficultyLevel.EASY, .EASY, .EASY, .EASY, .MEDIUM, .MEDIUM, .MEDIUM, .MEDIUM] := by
  norm_num [askMore, generate_first_question, generate_next_question, update_difficulty,
    mkOrchestrator, mkSession, try_transition, transition_to, can_transition_to,
    enter_state, mkStateMachine, VALID_TRANSITIONS, Option.bind]

/-- Claim C3 (counterexample): two consecutive silence-detection events
whose evaluator results both set `needs_followup` make the
`handle_silence_detected` path issue two consecutive follow-up questions —
the handler bypasses the `pending_followup` guard of `process_answer`. -/
theorem silence_path_consecutive_followups :
    runSilence demoStartedOrchestrator [demoSilenceEvent, demoSilenceEvent] =
      [HandlerOutcome.followupIssued, HandlerOutcome.followupIssued] ∧
    ¬ List.Chain' (fun a b => ¬(a = HandlerOutcome.followupIssued ∧
        b = HandlerOutcome.followupIssued))
      (runSilence demoStartedOrchestrator [demoSilenceEvent, demoSilenceEvent]) := by
  have h : runSilence demoStartedOrchestrator [demoSilenceEvent, demoSilenceEvent] =
      [HandlerOutcome.followupIssued, HandlerOutcome.followupIssued] := by
    simp +decide [runSilence, demoStartedOrchestrator, demoSilenceEvent, demoEngineEval,
      demoGeminiEval, mkOrchestrator, mkSession, generate_first_question,
      handle_silence_detected, add_transcript_chunk, generate_followup_question,
      get_average_score, ALL_METRICS, try_transition, transition_to, can_transition_to,
      enter_state, mkStateMachine, VALID_TRANSITIONS]
  refine ⟨h, ?_⟩
  rw [h]
  simp [List.chain'_cons]

/-- Claim C4: aggregating the empty evaluation list yields 0.0 on all six
metrics, and aggregating any non-empty list in which every evaluation
scores a metric as 10 yields 10.0 for that metric. -/
theorem aggregate_empty_and_constant_ten :
    (∀ metric, aggregate_evaluations [] none metric = 0) ∧
    ∀ (evaluations : List AnswerEvaluation) (metric : MetricName),
      evaluations ≠ [] →
      (∀ e ∈ evaluations, e.scores metric = some 10) →
      aggregate_evaluations evaluations none metric = 10 := by
  constructor
  · intro metric
    simp [aggregate_evaluations]
  · intro evaluations metric hne h10
    rw [aggregate_eq_mean evaluations none metric hne (by simp)]
    have hsum : (evaluations.map (fun e => get_metric_score e metric)).sum =
        10 * (evaluations.length : ℚ) := by
      apply sum_map_of_const
      intro e he
      simp [get_metric_score, h10 e he]
    have hlen : ((evaluations.length : ℚ)) ≠ 0 := by
      have hp := List.length_pos.mpr hne
      exact_mod_cast Nat.pos_iff_ne_zero.mp hp
    rw [hsum]
    field_simp

/-- Witness for C4 at a concrete singleton evaluation list. -/
theorem aggregate_empty_and_constant_ten_witness :
    aggregate_evaluations [demoTenEval] none .technical_depth = 10 :=
  aggregate_empty_and_constant_ten.2 [demoTenEval] .technical_depth
    (List.cons_ne_nil _ _)
    (fun e he => by rw [List.mem_singleton] at he; rw [he]; rfl)

/-- Claim C10: with any per-metric weight assignment whose weight for the
metric at hand is positive, `aggregate_evaluations` returns exactly the
unweighted arithmetic mean of that metric's per-answer scores — the weights
cancel, and the result coincides with the default-weight aggregation. -/
theorem aggregate_uniform_weights_cancel :
    ∀ (evaluations : List AnswerEvaluation) (weights : MetricName → Option ℚ)
      (metric : MetricName),
      evaluations ≠ [] →
      0 < (weights metric).getD 1 →
      aggregate_evaluations evaluations (some weights) metric =
        (evaluations.map (fun e => get_metric_score e metric)).sum /
          (evaluations.length : ℚ) ∧
      aggregate_evaluations evaluations (some weights) metric =
        aggregate_evaluations evaluations none metric := by
  intro evaluations weights metric hne hw
  have h1 := aggregate_eq_mean evaluations (some weights) metric hne (by simpa using hw)
  have h2 := aggregate_eq_mean evaluations none metric hne (by simp)
  exact ⟨h1, by rw [h1, h2]⟩

/-- Witness for C10 at a concrete evaluation list and weight table. -/
theorem aggregate_uniform_weights_cancel_witness :
    aggregate_evaluations [demoTenEval] (some (fun _ => some 2)) .communication =
      aggregate_evaluations [demoTenEval] none .communication :=
  (aggregate_uniform_weights_cancel [demoTenEval] (fun _ => some 2) .communication
    (List.cons_ne_nil _ _) (by norm_num)).2

/-- Claim C5: with the default metric weights, raising any single
aggregated metric (the other five held fixed) never lowers the overall
score. -/
theorem calculate_overall_score_monotone :
    ∀ (aggregated_scores : MetricName → Option ℚ) (metric : MetricName) (v2 : ℚ),
      (aggregated_scores metric).getD 0 ≤ v2 →
      calculate_overall_score aggregated_scores none ≤
        calculate_overall_score
          (fun m => if m = metric then some v2 else aggregated_scores m) none := by
  intro a M v2 h
  have key : ∀ x y : ℚ, x ≤ y → max 0 (min 10 x) ≤ max 0 (min 10 y) :=
    fun x y hxy => max_le_max le_rfl (min_le_min le_rfl hxy)
  simp only [calculate_overall_score, ALL_METRICS, List.map_cons, List.map_nil,
    List.sum_cons, List.sum_nil, default_metric_weights, Option.getD_some]
  rw [if_pos (by norm_num), if_pos (by norm_num)]
  apply key
  apply div_le_div_of_nonneg_right ?_ (by norm_num)
  cases M <;> simp <;> nlinarith [h]

/-- Witness for C5 at a concrete score table. -/
theorem calculate_overall_score_monotone_witness :
    calculate_overall_score (fun _ => some 5) none ≤
      calculate_overall_score
        (fun m => if m = MetricName.confidence then some 9 else some 5) none :=
  calculate_overall_score_monotone (fun _ => some 5) .confidence 9 (by norm_num)

/-- Claim C8 (counterexample): completing an interview whose evaluation
history is empty but which recorded one legacy quality score of 8 sets the
overall score to 8, not to 0. -/
theorem complete_interview_legacy_not_zero :
    (complete_interview (mkOrchestrator demoSessionLegacy 0) 0).session.overall_score_entry =
      some 8 ∧ (8 : ℚ) ≠ 0 := by
  constructor
  · norm_num [complete_interview, mkOrchestrator, demoSessionLegacy, mkSession,
      transition_to, can_transition_to, enter_state, mkStateMachine, VALID_TRANSITIONS]
  · norm_num

/-- Claim C8 (amended): when the evaluation history is empty,
`complete_interview` bypasses the aggregator (no `FinalEvaluation` is
produced) and sets the overall score to the mean of the legacy
`answer_quality` scores when any exist, leaving it untouched otherwise. -/
theorem complete_interview_empty_history :
    ∀ (o : InterviewOrchestrator) (now : Nat),
      o.session.evaluation_history = [] →
      (complete_interview o now).session.overall_score_entry =
        (if o.session.answer_quality_scores.isEmpty then o.session.overall_score_entry
         else some (o.session.answer_quality_scores.sum /
           (o.session.answer_quality_scores.length : ℚ))) ∧
      (complete_interview o now).session.final_evaluation =
        o.session.final_evaluation := by
  intro o now h
  by_cases hq : o.session.answer_quality_scores = []
  · simp [complete_interview, h, hq]
  · simp [complete_interview, h, hq, List.isEmpty_iff]

/-- Witness for C8 (amended) at a concrete fresh session. -/
theorem complete_interview_empty_history_witness :
    (complete_interview (mkOrchestrator (mkSession 3) 0) 0).session.final_evaluation =
      (mkOrchestrator (mkSession 3) 0).session.final_evaluation :=
  (complete_interview_empty_history (mkOrchestrator (mkSession 3) 0) 0 rfl).2

theorem generate_followup_pending (o : InterviewOrchestrator) (r : QuestionResult)
    (now : Nat) (o2 : InterviewOrchestrator) :
    generate_followup_question o r now = some o2 → o2.pending_followup = true := by
  intro h
  unfold generate_followup_question at h
  by_cases hq : o.session.questions = []
  · rw [if_pos hq] at h
    cases h
  · rw [if_neg hq] at h
    have := Option.some.inj h
    subst this
    rfl

theorem process_answer_pending_blocks (o : InterviewOrchestrator)
    (ev : GeminiEvaluation) (now : Nat) :
    o.pending_followup = true → (process_answer o ev now).2.needs_followup = false := by
  intro h
  unfold process_answer
  split
  · rfl
  · split
    · rfl
    · simp [try_transition, h]

theorem handle_user_answer_pending_blocks (o : InterviewOrchestrator)
    (ua : String) (ev : GeminiEvaluation) (fr nr : QuestionResult) (now : Nat) :
    o.pending_followup = true →
    (handle_user_answer o ua ev fr nr now).2.followup_flag = false := by
  intro h
  have hp := process_answer_pending_blocks { o with current_answer_buffer := ua } ev now
    (by simpa using h)
  simp only [handle_user_answer]
  rw [hp]
  simp only [Bool.false_eq_true, if_false]
  split
  · split <;> rfl
  · rfl

theorem handle_user_answer_followup_pending (o : InterviewOrchestrator)
    (ua : String) (ev : GeminiEvaluation) (fr nr : QuestionResult) (now : Nat) :
    (handle_user_answer o ua ev fr nr now).2.followup_flag = true →
    (handle_user_answer o ua ev fr nr now).1.pending_followup = true := by
  simp only [handle_user_answer]
  split
  · split
    · rename_i o2 heq
      intro _
      exact generate_followup_pending _ _ _ _ heq
    · split
      · split
        · intro hab
          cases hab
        · intro hab
          cases hab
      · intro hab
        cases hab
  · split
    · split
      · intro hab
        cases hab
      · intro hab
        cases hab
    · intro hab
      cases hab

theorem handle_transcribe_pending_blocks (o : InterviewOrchestrator) (t : String)
    (final : Bool) (ev : GeminiEvaluation) (fr nr : QuestionResult) (now : Nat) :
    o.pending_followup = true →
    (handle_transcribe o t final ev fr nr now).2 ≠ HandlerOutcome.followupIssued := by
  intro h
  cases final with
  | false => simp [handle_transcribe]
  | true =>
    simp only [handle_transcribe, if_true]
    split
    · simp
    · simp only []
      split
      · rename_i hflag
        rw [handle_user_answer_pending_blocks _ t ev fr nr now ?hO] at hflag
        · cases hflag
        case hO => simp [add_transcript_chunk, h]
      · simp

theorem handle_transcribe_followup_pending (o : InterviewOrchestrator) (t : String)
    (final : Bool) (ev : GeminiEvaluation) (fr nr : QuestionResult) (now : Nat) :
    (handle_transcribe o t final ev fr nr now).2 = HandlerOutcome.followupIssued →
    (handle_transcribe o t final ev fr nr now).1.pending_followup = true := by
  cases final with
  | false => simp [handle_transcribe]
  | true =>
    simp only [handle_transcribe, if_true]
    split
    · intro hab
      cases hab
    · simp only []
      split
      · rename_i hflag
        intro _
        have := handle_user_answer_followup_pending _ t ev fr nr now hflag
        simpa using this
      · intro hab
        cases hab

/-- Claim C3 (amended): on the final-transcript inbound path every
follow-up decision goes through `process_answer`, whose
`needs_followup and not pending_followup` guard ensures that no two
consecutive outbound questions are both follow-ups, for every sequence of
answers and every starting state. -/
theorem transcribe_no_consecutive_followups :
    ∀ (events : List TranscribeEvent) (o : InterviewOrchestrator),
      List.Chain' (fun a b => ¬(a = HandlerOutcome.followupIssued ∧
        b = HandlerOutcome.followupIssued)) (runTranscribe o events) := by
  intro events
  induction events with
  | nil =>
    intro o
    simp [runTranscribe]
  | cons e es ih =>
    intro o
    cases es with
    | nil => simp [runTranscribe]
    | cons e2 es2 =>
      simp only [runTranscribe]
      refine List.chain'_cons.mpr ⟨?_, ?_⟩
      · rintro ⟨h1, h2⟩
        have hp := handle_transcribe_followup_pending o e.transcript true e.evaluation
          e.followup_result e.next_result 0 h1
        exact handle_transcribe_pending_blocks _ _ _ _ _ _ _ hp h2
      · have := ih (handle_transcribe o e.transcript true e.evaluation
          e.followup_result e.next_result 0).1
        simpa only [runTranscribe] using this
